import Mathlib

/-!
Shallow embedding of `frappe/model/workflow.py` (document workflow engine).

Conventions of the embedding:
* A document (`Doc`) carries an association list of string fields (frappe's
  `doc.get` / `doc.set`), its `docstatus` (an integer attribute in the source,
  modelled as `Nat`), and its `is_new` flag.  `doc.set` conses the new binding
  in front; `doc.get` reads the first binding and returns `""` for an absent
  field (Python `None` and `""` are both falsy, collapsed to `""` here).
* Condition expressions are evaluated by `frappe.safe_eval` inside a sandbox.
  The sandbox is external to this module, so the evaluator is a parameter
  `c : CondEval`; the wrapper `evaluate_condition` keeps the source's
  "empty condition is true" behaviour.
* `frappe.throw` / `raise` are modelled with `Except`: an error carries the
  error kind and the in-memory document as it stands at the raise point
  (in Python the caller still holds that mutated object).
* The Workflow Action ledger (DB rows of doctype "Workflow Action") is a
  `List ActionRecord` threaded through the operations.  The two ledger
  mutators `update_completed_workflow_actions` and `create_workflow_actions`
  live in `frappe/workflow/doctype/workflow_action/workflow_action.py`,
  which is not part of the sources; they are modelled from the spec (see
  their doc comments).
* `doc.add_comment`, `frappe.has_permission`, `frappe.log_error` and
  `frappe.publish_progress` are external sinks / guards with no effect on
  the state this development reasons about; they are not modelled.
-/

/-- Lifecycle operations of the external document store. -/
inductive LifeOp where
  | save
  | submit
  | cancel
deriving DecidableEq, Repr

/-- A workflow document state row (child rows of the Workflow doctype).
`doc_status` is stored as a string in frappe and read through `cint`;
it is modelled as the resulting `Nat`. -/
structure WState where
  state : String
  doc_status : Nat
  update_field : Option String
  update_value : String
deriving DecidableEq, Repr

/-- A workflow transition row: `state` is the source state, `next_state`
the target, `action` the user-facing verb. -/
structure Transition where
  state : String
  action : String
  next_state : String
  condition : Option String
  allow_self_approval : Bool
  multi_user_action_mode : String
deriving DecidableEq, Repr

/-- The Workflow definition: ordered states, ordered transitions, and the
name of the document field that holds the current workflow state. -/
structure Workflow where
  workflow_state_field : String
  states : List WState
  transitions : List Transition
deriving DecidableEq, Repr

/-- A document: association list of fields, lifecycle status, newness. -/
structure Doc where
  fields : List (String × String)
  docstatus : Nat
  is_new : Bool
deriving DecidableEq, Repr

/-- `doc.get(field)`: first binding wins, absent collapses to `""`. -/
def Doc.get (d : Doc) (f : String) : String :=
  match d.fields.lookup f with
  | some v => v
  | none => ""

/-- `doc.set(field, value)`: prepend, so later reads see the new value. -/
def Doc.set (d : Doc) (f v : String) : Doc :=
  { d with fields := (f, v) :: d.fields }

/-- A row of the "Workflow Action" ledger. -/
structure ActionRecord where
  user : String
  workflow_state : String
  status : String
  reference_doctype : String
  reference_name : String
deriving DecidableEq, Repr

/-- The sandboxed expression evaluator (`frappe.safe_eval`), a parameter. -/
def CondEval := String → Doc → Bool

/-- `evaluate_condition`: an absent/empty condition is `True`, otherwise the
sandboxed evaluator decides. -/
def evaluate_condition (c : CondEval) (condition : Option String) (doc : Doc) : Bool :=
  match condition with
  | none => true
  | some s => if s = "" then true else c s doc

/-- Error kinds of the module (each `frappe.throw` / `raise` site). -/
inductive ErrKind where
  | stateError
  | transitionError
  | permissionError
  | noWorkflow
  | illegalDocStatus
  | indexError
deriving DecidableEq, Repr

/-- `get_transitions(doc, workflow)`: a new document yields `[]` before the
workflow or the state field is read; an empty state raises
`WorkflowStateError`; otherwise the source's for-loop collects, in
definition order, the transitions out of the current state whose condition
holds. -/
def get_transitions (c : CondEval) (doc : Doc) (workflow : Workflow) :
    Except ErrKind (List Transition) :=
  if doc.is_new then .ok []
  else
    let current_state := doc.get workflow.workflow_state_field
    if current_state = "" then .error .stateError
    else
      .ok (List.foldl
        (fun acc t =>
          if t.state = current_state then
            if evaluate_condition c t.condition doc then acc ++ [t] else acc
          else acc)
        [] workflow.transitions)

/-- `has_approval_access(user, doc, transition)`. -/
def has_approval_access (user : String) (doc : Doc) (t : Transition) : Bool :=
  user == "Administrator" || t.allow_self_approval || user != doc.get "owner"

/-- `other_user_open_action_count(doc, state, user)`: count of ledger rows
for this document and state that are not Completed and belong to a
different user. -/
def other_user_open_action_count (ledger : List ActionRecord) (doc : Doc)
    (state : String) (user : String) : Nat :=
  (ledger.filter (fun r =>
    r.status != "Completed" && r.workflow_state == state && r.user != user &&
    r.reference_doctype == doc.get "doctype" &&
    r.reference_name == doc.get "name")).length

/-- Modelled from the spec: `update_completed_workflow_actions` (in
`frappe/workflow/doctype/workflow_action/workflow_action.py`, not among the
sources) marks the acting user's Open action records for this document
Completed; records of other users or other documents are untouched. -/
def update_completed_workflow_actions (ledger : List ActionRecord) (doc : Doc)
    (user : String) : List ActionRecord :=
  ledger.map (fun r =>
    if r.user = user ∧ r.reference_doctype = doc.get "doctype" ∧
        r.reference_name = doc.get "name" ∧ r.status ≠ "Completed" then
      { r with status := "Completed" }
    else r)

/-- Modelled from the spec: `create_workflow_actions` (same missing module)
records a new Open action record for the target user on this document. -/
def create_workflow_actions (ledger : List ActionRecord) (workflow : Workflow)
    (doc : Doc) (target_user : String) : List ActionRecord :=
  ledger ++ [{ user := target_user,
               workflow_state := doc.get workflow.workflow_state_field,
               status := "Open",
               reference_doctype := doc.get "doctype",
               reference_name := doc.get "name" }]

/-- `action_source and action_source in ['Pre-Check', 'Add Additional Check']`
(a `None` or empty source is falsy). -/
def is_pre_check (action_source : Option String) : Bool :=
  match action_source with
  | none => false
  | some s => !(s == "") && (s == "Pre-Check" || s == "Add Additional Check")

/-- The pseudo-transition synthesized for the "Start" action:
`frappe._dict({'allow_self_approval': 1, 'next_state': workflow.transitions[0].state,
'multi_user_action_mode': 'Any'})`.  The `_dict` has no `state`, `action`
or `condition` key (reads yield `None`, modelled as `""` / `none`); its
`next_state` is the SOURCE state of the first declared transition. -/
def start_transition (t0 : Transition) : Transition :=
  { state := ""
    action := ""
    next_state := t0.state
    condition := none
    allow_self_approval := true
    multi_user_action_mode := "Any" }

/-- The transition-search loop of `apply_workflow`: iterate the available
transitions, skip those whose condition fails, and assign (without
breaking) every one whose action matches — so the LAST match survives. -/
def find_transition (c : CondEval) (doc : Doc) (ts : List Transition)
    (action : String) : Option Transition :=
  List.foldl
    (fun acc t =>
      if evaluate_condition c t.condition doc then
        if t.action = action then some t else acc
      else acc)
    none ts

/-- Transition resolution of `apply_workflow`: an explicit transition (the
fetched "Workflow Transition" document) wins; otherwise "Start" synthesizes
a pseudo-transition from the first declared transition (IndexError when
there is none); otherwise the search loop over `get_transitions`. -/
def resolve_transition (c : CondEval) (workflow : Workflow) (doc : Doc)
    (action : String) (explicit : Option Transition) :
    Except ErrKind (Option Transition) :=
  match explicit with
  | some t => .ok (some t)
  | none =>
    if action = "Start" then
      match workflow.transitions with
      | [] => .error .indexError
      | t0 :: _ => .ok (some (start_transition t0))
    else
      match get_transitions c doc workflow with
      | .error k => .error k
      | .ok ts => .ok (find_transition c doc ts action)

/-- The effective target state written by the advancing branch: a rejection
overwrites `transition.next_state` with the first declared state
(IndexError when `workflow.states` is empty, hence the `Option`). -/
def effective_target (workflow : Workflow) (action : String) (t : Transition) :
    Option String :=
  if action = "Reject" then workflow.states.head?.map (fun s => s.state)
  else some t.next_state

/-- The in-memory field writes of the advancing branch, in source order:
`doc.workflow_action`, `doc.workflow_comment`, the workflow state field,
then the target state's optional `update_field`. -/
def staged_doc (workflow : Workflow) (action : String) (comment : Option String)
    (doc : Doc) (tgt : String) (ns : WState) : Doc :=
  let doc1 := (doc.set "workflow_action" action).set "workflow_comment"
    (comment.getD "")
  let doc2 := doc1.set workflow.workflow_state_field tgt
  match ns.update_field with
  | some uf => if uf = "" then doc2 else doc2.set uf ns.update_value
  | none => doc2

/-- Effect of the external lifecycle operation on the in-memory document:
`submit` and `cancel` move `docstatus`, `save` keeps it. -/
def run_lifecycle (op : LifeOp) (d : Doc) : Doc :=
  match op with
  | .save => d
  | .submit => { d with docstatus := 1 }
  | .cancel => { d with docstatus := 2 }

/-- An error raised by `apply_workflow`, carrying the in-memory document as
it stands at the raise point. -/
structure ApplyError where
  kind : ErrKind
  doc : Doc
deriving DecidableEq, Repr

/-- A normal return of `apply_workflow`: the returned document, the ledger
after any action-record updates, and the lifecycle operation (if any). -/
structure ApplyResult where
  doc : Doc
  ledger : List ActionRecord
  lifecycle : Option LifeOp
deriving DecidableEq, Repr

/-- The `else` (state-advancing) branch of `apply_workflow`: stage the field
writes, then dispatch `(doc.docstatus, cint(next_state.doc_status))`
against the fixed legality table, throwing "Illegal Document Status"
otherwise. -/
def advance_state (workflow : Workflow) (ledger : List ActionRecord) (doc : Doc)
    (action : String) (comment : Option String) (t : Transition) :
    Except ApplyError ApplyResult :=
  let doc1 := (doc.set "workflow_action" action).set "workflow_comment"
    (comment.getD "")
  match effective_target workflow action t with
  | none => .error { kind := .indexError, doc := doc1 }
  | some tgt =>
    match workflow.states.filter (fun d => d.state = tgt) with
    | [] => .error { kind := .indexError,
                     doc := doc1.set workflow.workflow_state_field tgt }
    | ns :: _ =>
      let doc3 := staged_doc workflow action comment doc tgt ns
      if doc3.docstatus = 0 ∧ ns.doc_status = 0 then
        .ok { doc := run_lifecycle .save doc3, ledger := ledger,
              lifecycle := some .save }
      else if doc3.docstatus = 0 ∧ ns.doc_status = 1 then
        .ok { doc := run_lifecycle .submit doc3, ledger := ledger,
              lifecycle := some .submit }
      else if doc3.docstatus = 1 ∧ ns.doc_status = 1 then
        .ok { doc := run_lifecycle .save doc3, ledger := ledger,
              lifecycle := some .save }
      else if doc3.docstatus = 1 ∧ ns.doc_status = 2 then
        .ok { doc := run_lifecycle .cancel doc3, ledger := ledger,
              lifecycle := some .cancel }
      else
        .error { kind := .illegalDocStatus, doc := doc3 }

/-- The gated (non-advancing) branch of `apply_workflow`: complete the
acting user's open actions; when this is a pre-check with a designated
(non-empty) previous user, create a follow-up open action for that user;
the document is returned unchanged and no lifecycle operation runs. -/
def gate_action (workflow : Workflow) (ledger : List ActionRecord) (doc : Doc)
    (user : String) (ipc : Bool) (previous_user : Option String) : ApplyResult :=
  let ledger1 := update_completed_workflow_actions ledger doc user
  let ledger2 :=
    match previous_user with
    | some p =>
      if ipc = true ∧ p ≠ "" then create_workflow_actions ledger1 workflow doc p
      else ledger1
    | none => ledger1
  { doc := doc, ledger := ledger2, lifecycle := none }

/-- Arguments of `apply_workflow` besides the document.  The explicit
transition argument stands for the already-fetched "Workflow Transition"
document named by `transition_name`. -/
structure ApplyArgs where
  action : String
  explicit_transition : Option Transition
  next_user : String
  action_source : Option String
  previous_user : Option String
  comment : Option String
deriving DecidableEq, Repr

/-- `apply_workflow(doc, action, ...)`: missing workflow throws; Forward /
Add Additional Check bypass the state machine (complete the acting user's
actions, create one for `next_user`); otherwise resolve the transition,
check self-approval access, and either gate (mode All with other open
actions, or a pre-check source) or advance the state. -/
def apply_workflow (c : CondEval) (workflow? : Option Workflow) (user : String)
    (ledger : List ActionRecord) (doc : Doc) (args : ApplyArgs) :
    Except ApplyError ApplyResult :=
  match workflow? with
  | none => .error { kind := .noWorkflow, doc := doc }
  | some workflow =>
    if args.action = "Forward" ∨ args.action = "Add Additional Check" then
      let ledger1 := update_completed_workflow_actions ledger doc user
      let ledger2 := create_workflow_actions ledger1 workflow doc args.next_user
      .ok { doc := doc, ledger := ledger2, lifecycle := none }
    else
      match resolve_transition c workflow doc args.action
          args.explicit_transition with
      | .error k => .error { kind := k, doc := doc }
      | .ok none => .error { kind := .transitionError, doc := doc }
      | .ok (some t) =>
        if has_approval_access user doc t then
          let ipc := is_pre_check args.action_source
          if (t.multi_user_action_mode = "All" ∧
              other_user_open_action_count ledger doc t.state user > 0) ∨
              ipc = true then
            .ok (gate_action workflow ledger doc user ipc args.previous_user)
          else
            advance_state workflow ledger doc args.action args.comment t
        else .error { kind := .permissionError, doc := doc }

/-- The in-memory document held by the caller after a call, whether it
returned or raised. -/
def result_doc (r : Except ApplyError ApplyResult) : Doc :=
  match r with
  | .ok res => res.doc
  | .error e => e.doc

/-- One entry of `frappe.message_log`: text plus its `raise_exception` flag. -/
structure LogMessage where
  message : String
  raise_exception : Bool
deriving DecidableEq, Repr

/-- What one item's attempt (`frappe.get_doc` + `apply_workflow` +
`frappe.db.commit`) did, as the bulk loop observes it: `raised` carries the
formatted message (class name plus first argument) when the attempt raised
a manual exception, and `messages` what it pushed onto the message log
(`frappe.throw` both raises and pushes a flagged message). -/
structure ItemRun where
  raised : Option String
  messages : List LogMessage
deriving DecidableEq, Repr

/-- A per-item report entry `{"docname": ..., "message": ...}`. -/
structure ReportEntry where
  docname : String
  message : Option String
deriving DecidableEq, Repr

/-- `frappe.clear_messages()`. -/
def clear_messages (_log : List LogMessage) : List LogMessage := []

/-- State of the bulk loop: the pending message log, the two report
dictionaries (flattened to entry lists in append order), and which items
were committed resp. rolled back. -/
structure BulkAcc where
  log : List LogMessage
  failed : List ReportEntry
  successful : List ReportEntry
  committed : List String
  rolled_back : List String
deriving DecidableEq, Repr

/-- The `finally` block's pass over the message log: each message becomes a
failed entry when its `raise_exception` flag is set, a successful entry
otherwise. -/
def classify_log (docname : String) (log : List LogMessage) :
    List ReportEntry × List ReportEntry :=
  ((log.filter (fun m => m.raise_exception)).map
      (fun m => { docname := docname, message := some m.message }),
   (log.filter (fun m => !m.raise_exception)).map
      (fun m => { docname := docname, message := some m.message }))

/-- One iteration of the bulk loop body (`try`/`except`/`finally`): commit
on normal return, roll back on exception; a bare exception with an empty
log becomes one failed entry, otherwise the log is drained and classified. -/
def bulk_step (runs : String → ItemRun) (acc : BulkAcc) (docname : String) :
    BulkAcc :=
  let run := runs docname
  let log1 := acc.log ++ run.messages
  match run.raised with
  | some exc =>
    if log1.isEmpty then
      { acc with
        log := [],
        failed := acc.failed ++ [{ docname := docname, message := some exc }],
        rolled_back := acc.rolled_back ++ [docname] }
    else
      let fs := classify_log docname log1
      { acc with
        log := [],
        failed := acc.failed ++ fs.1,
        successful := acc.successful ++ fs.2,
        rolled_back := acc.rolled_back ++ [docname] }
  | none =>
    if log1.isEmpty then
      { acc with
        log := [],
        successful := acc.successful ++
          [{ docname := docname, message := none }],
        committed := acc.committed ++ [docname] }
    else
      let fs := classify_log docname log1
      { acc with
        log := [],
        failed := acc.failed ++ fs.1,
        successful := acc.successful ++ fs.2,
        committed := acc.committed ++ [docname] }

/-- The final report: both dictionaries, the commit/rollback record, and
the overall indicator colour. -/
structure BulkReport where
  failed : List ReportEntry
  successful : List ReportEntry
  committed : List String
  rolled_back : List String
  indicator : String
deriving DecidableEq, Repr

/-- `bulk_workflow_approval(docnames, doctype, action, transition)`: clear
the message log first, run every item in input order, then colour the
report: both dictionaries non-empty is orange, only failures red,
otherwise green. -/
def bulk_workflow_approval (initial_log : List LogMessage)
    (runs : String → ItemRun) (docnames : List String) : BulkReport :=
  let acc0 : BulkAcc :=
    { log := clear_messages initial_log, failed := [], successful := [],
      committed := [], rolled_back := [] }
  let acc := docnames.foldl (bulk_step runs) acc0
  let indicator :=
    if ¬acc.failed.isEmpty ∧ ¬acc.successful.isEmpty then "orange"
    else if ¬acc.failed.isEmpty then "red"
    else "green"
  { failed := acc.failed, successful := acc.successful,
    committed := acc.committed, rolled_back := acc.rolled_back,
    indicator := indicator }

instance {e a : Type _} [DecidableEq e] [DecidableEq a] :
    DecidableEq (Except e a) := fun x y =>
  match x, y with
  | .ok u, .ok v =>
    if h : u = v then isTrue (by rw [h]) else isFalse (by simp [h])
  | .error u, .error v =>
    if h : u = v then isTrue (by rw [h]) else isFalse (by simp [h])
  | .ok _, .error _ => isFalse (by simp)
  | .error _, .ok _ => isFalse (by simp)

/-- The spec's resolution rule as written ("first match wins"), used as the
comparandum for the search loop actually implemented in `apply_workflow`. -/
def first_matching_transition (c : CondEval) (doc : Doc) (ts : List Transition)
    (action : String) : Option Transition :=
  ts.find? (fun t => evaluate_condition c t.condition doc && t.action == action)

/-- A sandbox evaluator that accepts every condition. -/
def condTrue : CondEval := fun _ _ => true

/-- A sandbox evaluator that rejects every non-empty condition. -/
def condFalse : CondEval := fun _ _ => false

/-- Example: a workflow whose only state requires a cancelled record. -/
def exW1 : Workflow := ⟨"wf_state", [⟨"Done", 2, none, ""⟩], []⟩

/-- Example transition into the `Done` state of `exW1`. -/
def exT1 : Transition := ⟨"S", "Go", "Done", none, true, "Any"⟩

/-- Example draft document sitting in state `S`. -/
def exDoc1 : Doc := ⟨[("wf_state", "S")], 0, false⟩

/-- Example workflow whose single state demands docStatus 2 from a draft. -/
def exWc1 : Workflow :=
  ⟨"wf_state", [⟨"Pending", 2, none, ""⟩],
    [⟨"Pending", "Go", "Pending", none, true, "Any"⟩]⟩

/-- Example draft document in state `Pending` of `exWc1`. -/
def exDocc1 : Doc :=
  ⟨[("wf_state", "Pending"), ("owner", "alice"), ("doctype", "DT"),
    ("name", "D1")], 0, false⟩

/-- Example argument record requesting action `Go`. -/
def exArgsc1 : ApplyArgs := ⟨"Go", none, "", none, none, none⟩

/-- The in-memory document as it stands when `exWc1`/`exDocc1` hit the
illegal-docstatus throw: the staged field writes are already present. -/
def exMutc1 : Doc :=
  ⟨("wf_state", "Pending") :: ("workflow_comment", "") ::
    ("workflow_action", "Go") :: exDocc1.fields, 0, false⟩

/-- Example workflow with a single parallel-approval (mode All) transition. -/
def exW2 : Workflow :=
  ⟨"wf_state", [⟨"Pending", 0, none, ""⟩, ⟨"Approved", 1, none, ""⟩],
    [⟨"Pending", "Approve", "Approved", none, true, "All"⟩]⟩

/-- Example document pending approval, owned by alice. -/
def exDoc2 : Doc :=
  ⟨[("wf_state", "Pending"), ("owner", "alice"), ("doctype", "DT"),
    ("name", "D1")], 0, false⟩

/-- Example argument record requesting action `Approve`. -/
def exArgs2 : ApplyArgs := ⟨"Approve", none, "", none, none, none⟩

/-- Example open ledger row of another approver (carol). -/
def exRec2 : ActionRecord := ⟨"carol", "Pending", "Open", "DT", "D1"⟩

/-- The mode-All transition of `exW2`. -/
def exT2 : Transition := ⟨"Pending", "Approve", "Approved", none, true, "All"⟩

/-- Example workflow whose Reject transition declares a non-initial target. -/
def exW3 : Workflow :=
  ⟨"wf_state", [⟨"Draft", 0, none, ""⟩, ⟨"Review", 0, none, ""⟩],
    [⟨"Review", "Reject", "Review", none, true, "Any"⟩]⟩

/-- Example document under review. -/
def exDoc3 : Doc :=
  ⟨[("wf_state", "Review"), ("owner", "alice"), ("doctype", "DT"),
    ("name", "D1")], 0, false⟩

/-- Example argument record requesting action `Reject`. -/
def exArgs3 : ApplyArgs := ⟨"Reject", none, "", none, none, none⟩

/-- The result of rejecting `exDoc3`: back to `Draft`, saved. -/
def exRes3 : ApplyResult :=
  ⟨⟨("wf_state", "Draft") :: ("workflow_comment", "") ::
      ("workflow_action", "Reject") :: exDoc3.fields, 0, false⟩, [],
    some .save⟩

/-- Example workflow with two same-action transitions out of `S`. -/
def exW4 : Workflow :=
  ⟨"wf_state",
    [⟨"S", 0, none, ""⟩, ⟨"A", 0, none, ""⟩, ⟨"B", 0, none, ""⟩],
    [⟨"S", "Go", "A", none, true, "Any"⟩,
     ⟨"S", "Go", "B", none, true, "Any"⟩]⟩

/-- Example document in state `S`. -/
def exDoc4 : Doc :=
  ⟨[("wf_state", "S"), ("owner", "alice"), ("doctype", "DT"), ("name", "D4")],
    0, false⟩

/-- Example workflow with no transitions at all. -/
def exW4e : Workflow := ⟨"wf_state", [⟨"S", 0, none, ""⟩], []⟩

/-- Example argument record requesting action `Go`. -/
def exArgs4 : ApplyArgs := ⟨"Go", none, "", none, none, none⟩

/-- Example workflow whose first transition runs from `A` to `B`. -/
def exW5 : Workflow :=
  ⟨"wf_state", [⟨"A", 0, none, ""⟩, ⟨"B", 0, none, ""⟩],
    [⟨"A", "Go", "B", none, true, "Any"⟩]⟩

/-- Example document in state `A`. -/
def exDoc5 : Doc := ⟨[("wf_state", "A")], 0, false⟩

/-- Example workflow with transitions out of two states, one conditional. -/
def exW7 : Workflow :=
  ⟨"wf_state", [⟨"S", 0, none, ""⟩, ⟨"T", 0, none, ""⟩],
    [⟨"S", "Go", "T", none, true, "Any"⟩,
     ⟨"T", "Back", "S", none, true, "Any"⟩,
     ⟨"S", "Stay", "S", some "cond", true, "Any"⟩]⟩

/-- Example document in state `S`. -/
def exDoc7 : Doc := ⟨[("wf_state", "S")], 0, false⟩

/-- Example batch behaviour: item `D2` raises, every other item succeeds. -/
def exRuns8 : String → ItemRun := fun d =>
  if d = "D2" then ⟨some "WorkflowTransitionError", []⟩
  else ⟨none, []⟩

/-- Example document that is not yet persisted. -/
def exDoc9 : Doc := ⟨[("wf_state", "S")], 0, true⟩

/-- Example workflow (empty). -/
def exW9a : Workflow := ⟨"wf_state", [], []⟩

/-- Example workflow with a different state field and content. -/
def exW9b : Workflow :=
  ⟨"other_field", [⟨"X", 1, none, ""⟩], [⟨"X", "Go", "X", none, false, "All"⟩]⟩

/-- Reading back the field just written yields the written value. -/
theorem Doc.get_set_same (d : Doc) (f v : String) : (d.set f v).get f = v := by
  simp [Doc.get, Doc.set, List.lookup]

/-- Writing one field leaves every other field unchanged. -/
theorem Doc.get_set_other (d : Doc) (f fq v : String) (h : fq ≠ f) :
    (d.set f v).get fq = d.get fq := by
  have hb : (fq == f) = false := beq_eq_false_iff_ne.mpr h
  simp [Doc.get, Doc.set, List.lookup, hb]

/-- Lifecycle operations only move `docstatus`, never the fields. -/
theorem run_lifecycle_get (op : LifeOp) (d : Doc) (f : String) :
    (run_lifecycle op d).get f = d.get f := by
  cases op <;> rfl

/-- The collecting for-loop of `get_transitions` is an ordered filter. -/
theorem collect_fold_eq_filter (c : CondEval) (doc : Doc) (cs : String) :
    ∀ (l : List Transition) (acc : List Transition),
      List.foldl
        (fun acc t =>
          if t.state = cs then
            if evaluate_condition c t.condition doc then acc ++ [t] else acc
          else acc)
        acc l
      = acc ++ l.filter
          (fun t => t.state == cs && evaluate_condition c t.condition doc) := by
  intro l
  induction l with
  | nil => intro acc; simp
  | cons x xs ih =>
    intro acc
    by_cases h1 : x.state = cs
    · by_cases h2 : evaluate_condition c x.condition doc = true
      · simp [h1, h2, ih, List.filter_cons]
      · simp [h1, h2, ih, List.filter_cons, Bool.not_eq_true]
    · simp [h1, ih, List.filter_cons]

/-- On a persisted document with a set state, `get_transitions` returns the
ordered filter of the declared transitions. -/
theorem get_transitions_eq_filter (c : CondEval) (doc : Doc) (w : Workflow)
    (hnew : doc.is_new = false)
    (hcs : doc.get w.workflow_state_field ≠ "") :
    get_transitions c doc w = .ok (w.transitions.filter
      (fun t => t.state == doc.get w.workflow_state_field &&
        evaluate_condition c t.condition doc)) := by
  simp [get_transitions, hnew, hcs, collect_fold_eq_filter]

/-- A list whose `getLast?` is `some a` contains `a`. -/
theorem getLast?_some_mem {α : Type _} {l : List α} {a : α}
    (h : l.getLast? = some a) : a ∈ l := by
  have hx : a ∈ l.getLast? := by simp [Option.mem_def, h]
  obtain ⟨hne, heq⟩ := List.mem_getLast?_eq_getLast hx
  rw [heq]
  exact List.getLast_mem hne

/-- The break-less search loop keeps the LAST condition-satisfying match. -/
theorem find_transition_fold (c : CondEval) (doc : Doc) (a : String) :
    ∀ (l : List Transition) (acc : Option Transition),
      List.foldl
        (fun acc t =>
          if evaluate_condition c t.condition doc then
            if t.action = a then some t else acc
          else acc)
        acc l
      = match (l.filter (fun t =>
            evaluate_condition c t.condition doc && t.action == a)).getLast? with
        | some t => some t
        | none => acc := by
  intro l
  induction l with
  | nil => intro acc; simp
  | cons x xs ih =>
    intro acc
    by_cases h1 : evaluate_condition c x.condition doc = true
    · by_cases h2 : x.action = a
      · rw [List.foldl_cons]
        simp only [h1, h2, if_true]
        rw [ih]
        have hf : (x :: xs).filter (fun t =>
            evaluate_condition c t.condition doc && t.action == a)
            = x :: xs.filter (fun t =>
              evaluate_condition c t.condition doc && t.action == a) := by
          simp [List.filter_cons, h1, h2]
        rw [hf]
        cases hxs : xs.filter (fun t =>
            evaluate_condition c t.condition doc && t.action == a) with
        | nil => simp
        | cons y ys =>
          rw [List.getLast?_cons_cons]
          cases hz : (y :: ys).getLast? with
          | none => simp [List.getLast?_eq_none_iff] at hz
          | some z => simp
      · rw [List.foldl_cons]
        simp only [h1, h2, if_true, if_false]
        rw [ih]
        have hf : (x :: xs).filter (fun t =>
            evaluate_condition c t.condition doc && t.action == a)
            = xs.filter (fun t =>
              evaluate_condition c t.condition doc && t.action == a) := by
          simp [List.filter_cons, h1, h2]
        rw [hf]
    · rw [List.foldl_cons]
      have hb : evaluate_condition c x.condition doc = false := by
        simpa [Bool.not_eq_true] using h1
      have hf : (x :: xs).filter (fun t =>
          evaluate_condition c t.condition doc && t.action == a)
          = xs.filter (fun t =>
            evaluate_condition c t.condition doc && t.action == a) := by
        simp [List.filter_cons, hb]
      simp only [hb, Bool.false_eq_true, if_false]
      rw [ih, hf]

/-- The search loop of `apply_workflow` resolves to the last transition, in
`get_transitions` order, whose condition holds and whose action matches. -/
theorem find_transition_eq_getLast (c : CondEval) (doc : Doc)
    (ts : List Transition) (a : String) :
    find_transition c doc ts a = (ts.filter (fun t =>
      evaluate_condition c t.condition doc && t.action == a)).getLast? := by
  rw [find_transition, find_transition_fold]
  cases (ts.filter (fun t =>
      evaluate_condition c t.condition doc && t.action == a)).getLast? <;> rfl

/-- A transition found by the search loop belongs to the searched list,
satisfies its condition and carries the requested action. -/
theorem find_transition_props (c : CondEval) (doc : Doc)
    (ts : List Transition) (a : String) (t : Transition)
    (h : find_transition c doc ts a = some t) :
    t ∈ ts ∧ evaluate_condition c t.condition doc = true ∧ t.action = a := by
  rw [find_transition_eq_getLast] at h
  have hm := getLast?_some_mem h
  rw [List.mem_filter] at hm
  refine ⟨hm.1, ?_, ?_⟩
  · have h2 := hm.2
    simp at h2
    exact h2.1
  · have h2 := hm.2
    simp at h2
    exact h2.2

/-- A transition found by searching the `get_transitions` result has the
document's current state as its source state. -/
theorem resolved_transition_props (c : CondEval) (doc : Doc) (w : Workflow)
    (a : String) (ts : List Transition) (t : Transition)
    (hts : get_transitions c doc w = .ok ts)
    (hfind : find_transition c doc ts a = some t) :
    t.state = doc.get w.workflow_state_field ∧ t.action = a ∧
      evaluate_condition c t.condition doc = true := by
  by_cases hnew : doc.is_new
  · simp [get_transitions, hnew] at hts
    subst hts
    simp [find_transition] at hfind
  · by_cases hcs : doc.get w.workflow_state_field = ""
    · simp [get_transitions, hnew, hcs] at hts
    · rw [get_transitions_eq_filter c doc w (by simpa using hnew) hcs] at hts
      have hts2 : ts = w.transitions.filter (fun t =>
          t.state == doc.get w.workflow_state_field &&
          evaluate_condition c t.condition doc) := by
        simpa using hts.symm
      subst hts2
      obtain ⟨hmem, hcond, hact⟩ := find_transition_props c doc _ a t hfind
      rw [List.mem_filter] at hmem
      have h2 := hmem.2
      simp at h2
      exact ⟨h2.1, hact, hcond⟩

/-- Reduction of `apply_workflow` once a transition has resolved and the
self-approval check has passed: gate or advance. -/
theorem apply_workflow_resolved (c : CondEval) (w : Workflow) (user : String)
    (ledger : List ActionRecord) (doc : Doc) (args : ApplyArgs) (t : Transition)
    (hfwd : args.action ≠ "Forward")
    (hadd : args.action ≠ "Add Additional Check")
    (hres : resolve_transition c w doc args.action args.explicit_transition
      = .ok (some t))
    (happ : has_approval_access user doc t = true) :
    apply_workflow c (some w) user ledger doc args =
      if (t.multi_user_action_mode = "All" ∧
          other_user_open_action_count ledger doc t.state user > 0) ∨
          is_pre_check args.action_source = true then
        .ok (gate_action w ledger doc user (is_pre_check args.action_source)
          args.previous_user)
      else advance_state w ledger doc args.action args.comment t := by
  simp [apply_workflow, hfwd, hadd, hres, happ]

/-- Outside a pre-check, gating only completes the acting user's actions. -/
theorem gate_action_not_pre_check (w : Workflow) (ledger : List ActionRecord)
    (doc : Doc) (user : String) (p : Option String) :
    gate_action w ledger doc user false p =
      { doc := doc, ledger := update_completed_workflow_actions ledger doc user,
        lifecycle := none } := by
  cases p <;> simp [gate_action]

/-- The staged field writes never touch `docstatus`. -/
theorem staged_doc_docstatus (w : Workflow) (action : String)
    (comment : Option String) (doc : Doc) (tgt : String) (ns : WState) :
    (staged_doc w action comment doc tgt ns).docstatus = doc.docstatus := by
  unfold staged_doc
  cases ns.update_field with
  | none => rfl
  | some uf => by_cases h : uf = "" <;> simp [h, Doc.set]

/-- Whatever the advancing branch returns or raises, the state field of the
in-memory document ends up at the effective target (provided no state row
redirects its update side effect at the state field itself). -/
theorem advance_state_result_get (w : Workflow) (ledger : List ActionRecord)
    (doc : Doc) (action : String) (comment : Option String) (t : Transition)
    (tgt : String)
    (htgt : effective_target w action t = some tgt)
    (hupd : ∀ s ∈ w.states, s.update_field ≠ some w.workflow_state_field) :
    (result_doc (advance_state w ledger doc action comment t)).get
      w.workflow_state_field = tgt := by
  unfold advance_state
  split
  · rename_i heq
    rw [heq] at htgt
    cases htgt
  · rename_i tgt2 heq
    rw [heq] at htgt
    injection htgt with htgt2
    subst htgt2
    split
    · simp [result_doc, Doc.get_set_same]
    · rename_i ns rest heq2
      have hns : ns ∈ w.states :=
        List.mem_of_mem_filter (heq2 ▸ List.mem_cons_self ns rest)
      have hnupd := hupd ns hns
      have hsg : (staged_doc w action comment doc tgt2 ns).get
          w.workflow_state_field = tgt2 := by
        unfold staged_doc
        cases hu : ns.update_field with
        | none => simp [Doc.get_set_same]
        | some uf =>
          by_cases he : uf = ""
          · simp [he, Doc.get_set_same]
          · have hne : uf ≠ w.workflow_state_field := by
              intro hq
              apply hnupd
              rw [hu, hq]
            simp [he]
            rw [Doc.get_set_other _ _ _ _ (Ne.symm hne), Doc.get_set_same]
      simp only []
      split_ifs <;> simp [result_doc, run_lifecycle_get, hsg]

/-- The advancing branch, reduced to its docstatus dispatch once the target
state row has been located. -/
theorem advance_state_dispatch (w : Workflow) (ledger : List ActionRecord)
    (doc : Doc) (action : String) (comment : Option String) (t : Transition)
    (tgt : String) (ns : WState) (rest : List WState)
    (htgt : effective_target w action t = some tgt)
    (hns : w.states.filter (fun d => d.state = tgt) = ns :: rest) :
    advance_state w ledger doc action comment t =
      (if doc.docstatus = 0 ∧ ns.doc_status = 0 then
        .ok { doc := run_lifecycle .save (staged_doc w action comment doc tgt ns),
              ledger := ledger, lifecycle := some .save }
      else if doc.docstatus = 0 ∧ ns.doc_status = 1 then
        .ok { doc := run_lifecycle .submit (staged_doc w action comment doc tgt ns),
              ledger := ledger, lifecycle := some .submit }
      else if doc.docstatus = 1 ∧ ns.doc_status = 1 then
        .ok { doc := run_lifecycle .save (staged_doc w action comment doc tgt ns),
              ledger := ledger, lifecycle := some .save }
      else if doc.docstatus = 1 ∧ ns.doc_status = 2 then
        .ok { doc := run_lifecycle .cancel (staged_doc w action comment doc tgt ns),
              ledger := ledger, lifecycle := some .cancel }
      else
        .error { kind := .illegalDocStatus,
                 doc := staged_doc w action comment doc tgt ns }) := by
  unfold advance_state
  split
  · rename_i heq
    rw [heq] at htgt
    cases htgt
  · rename_i tgt2 heq
    rw [heq] at htgt
    injection htgt with htgt2
    subst htgt2
    rw [hns]
    simp only [staged_doc_docstatus]

/-- Completing the acting user's actions leaves every other user's ledger
rows untouched (they remain members of the updated ledger). -/
theorem update_completed_preserves_others (ledger : List ActionRecord)
    (doc : Doc) (user : String) :
    ∀ r ∈ ledger, r.user ≠ user →
      r ∈ update_completed_workflow_actions ledger doc user := by
  intro r hr hru
  unfold update_completed_workflow_actions
  have hfix : (if r.user = user ∧ r.reference_doctype = doc.get "doctype" ∧
      r.reference_name = doc.get "name" ∧ r.status ≠ "Completed" then
        { r with status := "Completed" } else r) = r := by
    rw [if_neg]
    intro hq
    exact hru hq.1
  exact hfix ▸ List.mem_map_of_mem _ hr

/-- A normal return of `apply_workflow` that ran a lifecycle operation can
only have come from the state-advancing branch. -/
theorem apply_workflow_ok_advancing (c : CondEval) (wq : Option Workflow)
    (user : String) (ledger : List ActionRecord) (doc : Doc) (args : ApplyArgs)
    (res : ApplyResult)
    (hok : apply_workflow c wq user ledger doc args = .ok res)
    (hlif : res.lifecycle ≠ none) :
    ∃ w t, wq = some w ∧
      resolve_transition c w doc args.action args.explicit_transition =
        .ok (some t) ∧
      advance_state w ledger doc args.action args.comment t = .ok res := by
  cases wq with
  | none => simp [apply_workflow] at hok
  | some w =>
    rw [apply_workflow] at hok
    by_cases hfwd : (args.action = "Forward" ∨ args.action = "Add Additional Check")
    · rw [if_pos hfwd] at hok
      simp at hok
      have : res.lifecycle = none := by rw [← hok]
      exact absurd this hlif
    · rw [if_neg hfwd] at hok
      cases hres : resolve_transition c w doc args.action args.explicit_transition with
      | error k => rw [hres] at hok; cases hok
      | ok ot =>
        rw [hres] at hok
        cases ot with
        | none => simp at hok
        | some t =>
          simp only [] at hok
          by_cases happ : has_approval_access user doc t = true
          · rw [if_pos happ] at hok
            by_cases hgate : ((t.multi_user_action_mode = "All" ∧
                other_user_open_action_count ledger doc t.state user > 0) ∨
                is_pre_check args.action_source = true)
            · rw [if_pos hgate] at hok
              have hres2 : res = gate_action w ledger doc user
                  (is_pre_check args.action_source) args.previous_user := by
                cases hok
                rfl
              have : res.lifecycle = none := by
                rw [hres2]
                cases hp : args.previous_user <;> simp [gate_action]
              exact absurd this hlif
            · rw [if_neg hgate] at hok
              exact ⟨w, t, rfl, hres, hok⟩
          · rw [if_neg happ] at hok
            cases hok

/-- The bulk loop over quiet items (no message-log chatter): commits,
rollbacks and report entries accumulate as order-preserving filters. -/
theorem bulk_fold_quiet (runs : String → ItemRun) :
    ∀ (l : List String), (∀ d ∈ l, (runs d).messages = []) →
    ∀ (acc : BulkAcc), acc.log = [] →
      l.foldl (bulk_step runs) acc =
        { log := [],
          failed := acc.failed ++
            (l.filter (fun d => ((runs d).raised).isSome)).map
              (fun d => { docname := d, message := (runs d).raised }),
          successful := acc.successful ++
            (l.filter (fun d => ((runs d).raised).isNone)).map
              (fun d => { docname := d, message := none }),
          committed := acc.committed ++
            l.filter (fun d => ((runs d).raised).isNone),
          rolled_back := acc.rolled_back ++
            l.filter (fun d => ((runs d).raised).isSome) } := by
  intro l
  induction l with
  | nil =>
    intro _ acc hacc
    cases acc
    simp at hacc
    simp [hacc]
  | cons d ds ih =>
    intro hq acc hacc
    have hd : (runs d).messages = [] := hq d (List.mem_cons_self d ds)
    have hds : ∀ x ∈ ds, (runs x).messages = [] :=
      fun x hx => hq x (List.mem_cons_of_mem d hx)
    rw [List.foldl_cons]
    cases hr : (runs d).raised with
    | none =>
      have hstep : bulk_step runs acc d =
          { acc with
            log := [],
            successful := acc.successful ++
              [{ docname := d, message := none }],
            committed := acc.committed ++ [d] } := by
        simp [bulk_step, hr, hd, hacc]
      rw [hstep, ih hds _ rfl]
      simp [List.filter_cons, hr]
    | some e =>
      have hstep : bulk_step runs acc d =
          { acc with
            log := [],
            failed := acc.failed ++ [{ docname := d, message := some e }],
            rolled_back := acc.rolled_back ++ [d] } := by
        simp [bulk_step, hr, hd, hacc]
      rw [hstep, ih hds _ rfl]
      simp [List.filter_cons, hr]

/-- Claim C1 (amended): in the state-advancing branch, the pair (current
docstatus, target state docStatus) is mapped exactly by the table
(0,0) save, (0,1) submit, (1,1) save, (1,2) cancel; any pair outside the
table raises the illegal-document-status error and invokes no lifecycle
operation — but the in-memory document has already received the staged
field writes (workflow_action, workflow_comment, the state field, and any
update_field side effect) when the error is raised. -/
theorem c1_lifecycle_table_amended (w : Workflow) (ledger : List ActionRecord)
    (doc : Doc) (action : String) (comment : Option String) (t : Transition)
    (tgt : String) (ns : WState) (rest : List WState)
    (htgt : effective_target w action t = some tgt)
    (hns : w.states.filter (fun d => d.state = tgt) = ns :: rest) :
    (doc.docstatus = 0 ∧ ns.doc_status = 0 →
      advance_state w ledger doc action comment t =
        .ok { doc := run_lifecycle .save (staged_doc w action comment doc tgt ns),
              ledger := ledger, lifecycle := some .save }) ∧
    (doc.docstatus = 0 ∧ ns.doc_status = 1 →
      advance_state w ledger doc action comment t =
        .ok { doc := run_lifecycle .submit (staged_doc w action comment doc tgt ns),
              ledger := ledger, lifecycle := some .submit }) ∧
    (doc.docstatus = 1 ∧ ns.doc_status = 1 →
      advance_state w ledger doc action comment t =
        .ok { doc := run_lifecycle .save (staged_doc w action comment doc tgt ns),
              ledger := ledger, lifecycle := some .save }) ∧
    (doc.docstatus = 1 ∧ ns.doc_status = 2 →
      advance_state w ledger doc action comment t =
        .ok { doc := run_lifecycle .cancel (staged_doc w action comment doc tgt ns),
              ledger := ledger, lifecycle := some .cancel }) ∧
    ((doc.docstatus, ns.doc_status) ∉
        ([(0, 0), (0, 1), (1, 1), (1, 2)] : List (Nat × Nat)) →
      advance_state w ledger doc action comment t =
        .error { kind := .illegalDocStatus,
                 doc := staged_doc w action comment doc tgt ns }) := by
  have hd := advance_state_dispatch w ledger doc action comment t tgt ns rest
    htgt hns
  refine ⟨fun h => ?_, fun h => ?_, fun h => ?_, fun h => ?_, fun h => ?_⟩
  · rw [hd]
    simp [h.1, h.2]
  · rw [hd]
    simp [h.1, h.2]
  · rw [hd]
    simp [h.1, h.2]
  · rw [hd]
    simp [h.1, h.2]
  · have h1 : ¬(doc.docstatus = 0 ∧ ns.doc_status = 0) := by
      intro hq
      exact h (by simp [hq.1, hq.2])
    have h2 : ¬(doc.docstatus = 0 ∧ ns.doc_status = 1) := by
      intro hq
      exact h (by simp [hq.1, hq.2])
    have h3 : ¬(doc.docstatus = 1 ∧ ns.doc_status = 1) := by
      intro hq
      exact h (by simp [hq.1, hq.2])
    have h4 : ¬(doc.docstatus = 1 ∧ ns.doc_status = 2) := by
      intro hq
      exact h (by simp [hq.1, hq.2])
    rw [hd, if_neg h1, if_neg h2, if_neg h3, if_neg h4]

/-- Claim C1 witness: a draft document advancing into a docStatus-2 state
hits the (0,2) pair, which is outside the table and raises. -/
theorem c1_lifecycle_table_witness :
    effective_target exW1 "Go" exT1 = some "Done" ∧
    advance_state exW1 [] exDoc1 "Go" none exT1 =
      .error { kind := .illegalDocStatus,
               doc := staged_doc exW1 "Go" none exDoc1 "Done"
                 (WState.mk "Done" 2 none "") } :=
  ⟨by decide,
    (c1_lifecycle_table_amended exW1 [] exDoc1 "Go" none exT1 "Done"
      (WState.mk "Done" 2 none "") [] (by decide) (by decide)).2.2.2.2
      (by decide)⟩

/-- Claim C1 counterexample to "performs no mutation of the document": at
this input `apply_workflow` raises the illegal-document-status error, yet
the in-memory document it leaves behind differs from the input document —
its workflow_action, workflow_comment and state field were already set. -/
theorem c1_no_mutation_counterexample :
    apply_workflow condTrue (some exWc1) "bob" [] exDocc1 exArgsc1 =
      .error { kind := .illegalDocStatus, doc := exMutc1 } ∧
    exMutc1 ≠ exDocc1 := by
  refine ⟨by decide, by decide⟩

/-- Claim C2: for a non-Forward, non-AdditionalCheck, non-pre-check
invocation whose transition resolves by action matching to a mode-All
transition: with other users' open actions at the current state pending,
the document (in particular its state field) is returned unchanged and
only the acting user's open actions are marked completed; with none
pending, the state field is set to the transition's target state. -/
theorem c2_all_mode_gating (c : CondEval) (w : Workflow) (user : String)
    (ledger : List ActionRecord) (doc : Doc) (args : ApplyArgs)
    (ts : List Transition) (t : Transition)
    (hfwd : args.action ≠ "Forward")
    (hadd : args.action ≠ "Add Additional Check")
    (hstart : args.action ≠ "Start")
    (hexp : args.explicit_transition = none)
    (hts : get_transitions c doc w = .ok ts)
    (hfind : find_transition c doc ts args.action = some t)
    (happ : has_approval_access user doc t = true)
    (hpc : is_pre_check args.action_source = false)
    (hmode : t.multi_user_action_mode = "All")
    (hrej : args.action ≠ "Reject")
    (hupd : ∀ s ∈ w.states, s.update_field ≠ some w.workflow_state_field) :
    (other_user_open_action_count ledger doc
        (doc.get w.workflow_state_field) user > 0 →
      apply_workflow c (some w) user ledger doc args =
        .ok { doc := doc,
              ledger := update_completed_workflow_actions ledger doc user,
              lifecycle := none } ∧
      ∀ r ∈ ledger, r.user ≠ user →
        r ∈ update_completed_workflow_actions ledger doc user) ∧
    (other_user_open_action_count ledger doc
        (doc.get w.workflow_state_field) user = 0 →
      (result_doc (apply_workflow c (some w) user ledger doc args)).get
        w.workflow_state_field = t.next_state) := by
  have hres : resolve_transition c w doc args.action args.explicit_transition
      = .ok (some t) := by
    simp [resolve_transition, hexp, hstart, hts, hfind]
  obtain ⟨hstate, hactn, hcond⟩ :=
    resolved_transition_props c doc w args.action ts t hts hfind
  have happly := apply_workflow_resolved c w user ledger doc args t hfwd hadd
    hres happ
  constructor
  · intro hcount
    have hgate : (t.multi_user_action_mode = "All" ∧
        other_user_open_action_count ledger doc t.state user > 0) ∨
        is_pre_check args.action_source = true := by
      left
      refine ⟨hmode, ?_⟩
      rw [hstate]
      exact hcount
    refine ⟨?_, update_completed_preserves_others ledger doc user⟩
    rw [happly, if_pos hgate, hpc, gate_action_not_pre_check]
  · intro hcount
    have hngate : ¬((t.multi_user_action_mode = "All" ∧
        other_user_open_action_count ledger doc t.state user > 0) ∨
        is_pre_check args.action_source = true) := by
      intro hq
      rcases hq with ⟨_, hgt⟩ | hq2
      · rw [hstate, hcount] at hgt
        exact Nat.lt_irrefl 0 hgt
      · rw [hpc] at hq2
        cases hq2
    rw [happly, if_neg hngate]
    exact advance_state_result_get w ledger doc args.action args.comment t
      t.next_state (by simp [effective_target, hrej]) hupd

/-- Claim C2 witness: with carol's action still open at `Pending`, bob's
Approve completes only bob's (here: no) actions and leaves the document
untouched; carol's row survives unchanged. -/
theorem c2_all_mode_gating_witness :
    get_transitions condTrue exDoc2 exW2 = .ok [exT2] ∧
    other_user_open_action_count [exRec2] exDoc2 "Pending" "bob" = 1 ∧
    apply_workflow condTrue (some exW2) "bob" [exRec2] exDoc2 exArgs2 =
      .ok { doc := exDoc2, ledger := [exRec2], lifecycle := none } :=
  ⟨by decide, by decide,
    (((c2_all_mode_gating condTrue exW2 "bob" [exRec2] exDoc2 exArgs2 [exT2]
      exT2 (by decide) (by decide) (by decide) (by decide) (by decide)
      (by decide) (by decide) (by decide) (by decide) (by decide)
      (by decide)).1 (by decide)).1).trans (by decide)⟩

/-- Claim C3: whenever `apply_workflow` advances the state (it returned
normally and ran a lifecycle operation) under action Reject, the state
field of the returned document is the workflow's first declared state,
regardless of the resolved transition's declared target. -/
theorem c3_reject_routes_to_initial (c : CondEval) (w : Workflow)
    (user : String) (ledger : List ActionRecord) (doc : Doc) (args : ApplyArgs)
    (res : ApplyResult) (s0 : WState) (srest : List WState)
    (hact : args.action = "Reject")
    (hstates : w.states = s0 :: srest)
    (hupd : ∀ s ∈ w.states, s.update_field ≠ some w.workflow_state_field)
    (hok : apply_workflow c (some w) user ledger doc args = .ok res)
    (hlif : res.lifecycle ≠ none) :
    res.doc.get w.workflow_state_field = s0.state := by
  obtain ⟨w2, t, hw2, hres, hadv⟩ :=
    apply_workflow_ok_advancing c (some w) user ledger doc args res hok hlif
  injection hw2 with hw2
  subst hw2
  have htgt : effective_target w args.action t = some s0.state := by
    simp [effective_target, hact, hstates]
  have hget := advance_state_result_get w ledger doc args.action args.comment t
    s0.state htgt hupd
  rw [hadv] at hget
  simpa [result_doc] using hget

/-- Claim C3 witness: rejecting a document under review routes it back to
`Draft` although the Reject transition declares `Review` as its target. -/
theorem c3_reject_routes_to_initial_witness :
    apply_workflow condTrue (some exW3) "bob" [] exDoc3 exArgs3 = .ok exRes3 ∧
    exRes3.lifecycle ≠ none ∧
    exRes3.doc.get exW3.workflow_state_field = "Draft" :=
  ⟨by decide, by decide,
    c3_reject_routes_to_initial condTrue exW3 "bob" [] exDoc3 exArgs3 exRes3
      (WState.mk "Draft" 0 none "") [WState.mk "Review" 0 none ""]
      (by decide) (by decide) (by decide) (by decide) (by decide)⟩

/-- Claim C4 (amended): with no explicit transition and an action other
than Start, the effective transition is the LAST transition in
`get_transitions` order whose action matches and whose condition holds —
the search loop has no break, so later matches overwrite earlier ones; if
no transition matches, the invalid-workflow-action error
(WorkflowTransitionError) is raised. -/
theorem c4_last_match_amended (c : CondEval) (w : Workflow) (doc : Doc)
    (user : String) (ledger : List ActionRecord) (args : ApplyArgs)
    (ts : List Transition)
    (hexp : args.explicit_transition = none)
    (hstart : args.action ≠ "Start")
    (hfwd : args.action ≠ "Forward")
    (hadd : args.action ≠ "Add Additional Check")
    (hts : get_transitions c doc w = .ok ts) :
    find_transition c doc ts args.action = (ts.filter (fun t =>
      evaluate_condition c t.condition doc &&
        t.action == args.action)).getLast? ∧
    (find_transition c doc ts args.action = none →
      apply_workflow c (some w) user ledger doc args =
        .error { kind := .transitionError, doc := doc }) := by
  constructor
  · exact find_transition_eq_getLast c doc ts args.action
  · intro hnone
    simp [apply_workflow, hfwd, hadd, resolve_transition, hexp, hstart, hts,
      hnone]

/-- Claim C4 witness: with no transitions available the search finds
nothing and `apply_workflow` raises the invalid-workflow-action error. -/
theorem c4_last_match_witness :
    get_transitions condTrue exDoc4 exW4e = .ok [] ∧
    find_transition condTrue exDoc4 [] "Go" = none ∧
    apply_workflow condTrue (some exW4e) "bob" [] exDoc4 exArgs4 =
      .error { kind := .transitionError, doc := exDoc4 } :=
  ⟨by decide, by decide,
    (c4_last_match_amended condTrue exW4e exDoc4 "bob" [] exArgs4 []
      (by decide) (by decide) (by decide) (by decide) (by decide)).2
      (by decide)⟩

/-- Claim C4 counterexample to "first match wins": two matching transitions
out of `S`; the spec's first-match rule picks the one targeting `A`, the
code's resolution picks the one targeting `B`. -/
theorem c4_first_match_counterexample :
    get_transitions condTrue exDoc4 exW4 =
      .ok [Transition.mk "S" "Go" "A" none true "Any",
           Transition.mk "S" "Go" "B" none true "Any"] ∧
    first_matching_transition condTrue exDoc4
      [Transition.mk "S" "Go" "A" none true "Any",
       Transition.mk "S" "Go" "B" none true "Any"] "Go" =
      some (Transition.mk "S" "Go" "A" none true "Any") ∧
    resolve_transition condTrue exW4 exDoc4 "Go" none =
      .ok (some (Transition.mk "S" "Go" "B" none true "Any")) ∧
    Transition.mk "S" "Go" "A" none true "Any" ≠
      Transition.mk "S" "Go" "B" none true "Any" := by
  refine ⟨by decide, by decide, by decide, by decide⟩

/-- Claim C5 (amended): the Start pseudo-transition allows self-approval
and has multi-user mode Any, but its target is the SOURCE state of the
workflow's first declared transition, not that transition's target. -/
theorem c5_start_pseudo_amended (c : CondEval) (w : Workflow) (doc : Doc)
    (t0 : Transition) (rest : List Transition)
    (htr : w.transitions = t0 :: rest) :
    resolve_transition c w doc "Start" none =
      .ok (some { state := "", action := "", next_state := t0.state,
                  condition := none, allow_self_approval := true,
                  multi_user_action_mode := "Any" }) := by
  simp [resolve_transition, htr, start_transition]

/-- Claim C5 witness: starting a workflow whose first transition runs from
`A` to `B` synthesizes a pseudo-transition targeting `A`. -/
theorem c5_start_pseudo_witness :
    exW5.transitions = [Transition.mk "A" "Go" "B" none true "Any"] ∧
    resolve_transition condTrue exW5 exDoc5 "Start" none =
      .ok (some (Transition.mk "" "" "A" none true "Any")) :=
  ⟨rfl, c5_start_pseudo_amended condTrue exW5 exDoc5
    (Transition.mk "A" "Go" "B" none true "Any") [] rfl⟩

/-- Claim C5 counterexample to "target of the first declared transition":
the first transition targets `B`, yet the synthesized pseudo-transition
targets `A`, the transition's source. -/
theorem c5_start_target_counterexample :
    exW5.transitions.head? =
      some (Transition.mk "A" "Go" "B" none true "Any") ∧
    resolve_transition condTrue exW5 exDoc5 "Start" none =
      .ok (some (Transition.mk "" "" "A" none true "Any")) ∧
    ("A" : String) ≠ "B" := by
  refine ⟨by decide, by decide, by decide⟩

/-- Claim C6: approval access holds exactly for the administrator identity,
a self-approval-allowing transition, or a non-owner; equivalently it is
denied exactly when a non-administrator owner executes a transition with
self-approval disallowed. -/
theorem c6_approval_access_iff (user : String) (doc : Doc) (t : Transition) :
    (has_approval_access user doc t = true ↔
      user = "Administrator" ∨ t.allow_self_approval = true ∨
        user ≠ doc.get "owner") ∧
    (has_approval_access user doc t = false ↔
      user ≠ "Administrator" ∧ t.allow_self_approval = false ∧
        user = doc.get "owner") := by
  constructor
  · simp [has_approval_access, or_assoc]
  · simp [has_approval_access]
    tauto

/-- Claim C7: on a persisted document with a non-empty state field,
`get_transitions` returns exactly the declared transitions whose source
state is the current state and whose condition evaluates true, in
declaration order (an order-preserving sublist; the empty list is a valid
result of the same shape). -/
theorem c7_available_transitions (c : CondEval) (w : Workflow) (doc : Doc)
    (hnew : doc.is_new = false)
    (hcs : doc.get w.workflow_state_field ≠ "") :
    get_transitions c doc w = .ok (w.transitions.filter (fun t =>
      t.state == doc.get w.workflow_state_field &&
      evaluate_condition c t.condition doc)) ∧
    (∀ t ∈ w.transitions.filter (fun t =>
        t.state == doc.get w.workflow_state_field &&
        evaluate_condition c t.condition doc),
      t.state = doc.get w.workflow_state_field ∧
      evaluate_condition c t.condition doc = true) ∧
    List.Sublist (w.transitions.filter (fun t =>
      t.state == doc.get w.workflow_state_field &&
      evaluate_condition c t.condition doc)) w.transitions := by
  refine ⟨get_transitions_eq_filter c doc w hnew hcs, ?_,
    List.filter_sublist w.transitions⟩
  intro t ht
  rw [List.mem_filter] at ht
  have h2 := ht.2
  simp at h2
  exact h2

/-- Claim C7 witness: out of three declared transitions, only the
unconditional one leaving the current state `S` is returned (the one from
`T` and the one with a failing condition are filtered out). -/
theorem c7_available_transitions_witness :
    exDoc7.is_new = false ∧
    get_transitions condFalse exDoc7 exW7 =
      .ok [Transition.mk "S" "Go" "T" none true "Any"] :=
  ⟨rfl, ((c7_available_transitions condFalse exW7 exDoc7 (by decide)
    (by decide)).1).trans (by decide)⟩

/-- Claim C8: bulk execution processes the references in input order,
committing each success and rolling back each failure without aborting the
batch; each caught error becomes one per-item failed entry, each success
one successful entry; the report is green when all items succeed, red when
all fail, orange when both outcomes occur.  Items are assumed quiet (they
communicate by raising, not by message-log chatter). -/
theorem c8_bulk_isolation (initial_log : List LogMessage)
    (runs : String → ItemRun) (docnames : List String)
    (hquiet : ∀ d ∈ docnames, (runs d).messages = []) :
    (bulk_workflow_approval initial_log runs docnames).committed =
        docnames.filter (fun d => ((runs d).raised).isNone) ∧
    (bulk_workflow_approval initial_log runs docnames).rolled_back =
        docnames.filter (fun d => ((runs d).raised).isSome) ∧
    (bulk_workflow_approval initial_log runs docnames).failed =
        (docnames.filter (fun d => ((runs d).raised).isSome)).map
          (fun d => { docname := d, message := (runs d).raised }) ∧
    (bulk_workflow_approval initial_log runs docnames).successful =
        (docnames.filter (fun d => ((runs d).raised).isNone)).map
          (fun d => { docname := d, message := none }) ∧
    ((∀ d ∈ docnames, (runs d).raised = none) →
      (bulk_workflow_approval initial_log runs docnames).indicator =
        "green") ∧
    (docnames ≠ [] ∧ (∀ d ∈ docnames, (runs d).raised ≠ none) →
      (bulk_workflow_approval initial_log runs docnames).indicator = "red") ∧
    ((∃ d ∈ docnames, (runs d).raised = none) ∧
        (∃ d ∈ docnames, (runs d).raised ≠ none) →
      (bulk_workflow_approval initial_log runs docnames).indicator =
        "orange") := by
  have hfold := bulk_fold_quiet runs docnames hquiet
    { log := clear_messages initial_log, failed := [], successful := [],
      committed := [], rolled_back := [] } rfl
  simp only [bulk_workflow_approval, hfold]
  refine ⟨by simp, by simp, by simp, by simp, ?_, ?_, ?_⟩
  · intro hall
    have hnil : docnames.filter (fun d => ((runs d).raised).isSome) = [] :=
      List.filter_eq_nil_iff.mpr (fun d hd => by simp [hall d hd])
    simp [hnil]
  · rintro ⟨hne, hall⟩
    have hself : docnames.filter (fun d => ((runs d).raised).isSome) =
        docnames :=
      List.filter_eq_self.mpr (fun d hd => by
        cases hx : (runs d).raised with
        | none => exact absurd hx (hall d hd)
        | some e => simp)
    have hnil : docnames.filter (fun d => ((runs d).raised).isNone) = [] :=
      List.filter_eq_nil_iff.mpr (fun d hd => by
        simp [Option.isNone_iff_eq_none]
        exact hall d hd)
    simp [hself, hnil, hne]
  · rintro ⟨⟨d1, hd1, hn1⟩, ⟨d2, hd2, hn2⟩⟩
    have hmem1 : d1 ∈ docnames.filter (fun d => ((runs d).raised).isNone) :=
      List.mem_filter.mpr ⟨hd1, by simp [hn1]⟩
    have hmem2 : d2 ∈ docnames.filter (fun d => ((runs d).raised).isSome) :=
      List.mem_filter.mpr ⟨hd2, by
        cases hx : (runs d2).raised with
        | none => exact absurd hx hn2
        | some e => simp⟩
    have hne1 := List.ne_nil_of_mem hmem1
    have hne2 := List.ne_nil_of_mem hmem2
    simp [List.isEmpty_eq_true, List.map_eq_nil_iff, hne1, hne2]

/-- Claim C8 witness: a three-item batch whose second item raises commits
items 1 and 3, rolls back item 2, reports it failed, and colours the
overall report orange. -/
theorem c8_bulk_isolation_witness :
    (∀ d ∈ ["D1", "D2", "D3"], (exRuns8 d).messages = []) ∧
    (bulk_workflow_approval [] exRuns8 ["D1", "D2", "D3"]).committed =
      ["D1", "D3"] ∧
    (bulk_workflow_approval [] exRuns8 ["D1", "D2", "D3"]).rolled_back =
      ["D2"] ∧
    (bulk_workflow_approval [] exRuns8 ["D1", "D2", "D3"]).failed =
      [ReportEntry.mk "D2" (some "WorkflowTransitionError")] ∧
    (bulk_workflow_approval [] exRuns8 ["D1", "D2", "D3"]).indicator =
      "orange" :=
  ⟨by decide,
    ((c8_bulk_isolation [] exRuns8 ["D1", "D2", "D3"] (by decide)).1).trans
      (by decide),
    by decide, by decide, by decide⟩

/-- Claim C9: `get_transitions` on a not-yet-persisted document returns the
empty list without raising, whatever the workflow, the evaluator or the
state field say — neither is consulted. -/
theorem c9_new_doc_transitions (c1 c2 : CondEval) (doc : Doc)
    (w1 w2 : Workflow) (hnew : doc.is_new = true) :
    get_transitions c1 doc w1 = .ok [] ∧
    get_transitions c1 doc w1 = get_transitions c2 doc w2 := by
  simp [get_transitions, hnew]

/-- Claim C9 witness: a new document yields the empty transition list under
two entirely different workflows and evaluators. -/
theorem c9_new_doc_transitions_witness :
    exDoc9.is_new = true ∧
    get_transitions condTrue exDoc9 exW9a = .ok [] ∧
    get_transitions condTrue exDoc9 exW9a =
      get_transitions condFalse exDoc9 exW9b :=
  ⟨rfl,
    (c9_new_doc_transitions condTrue condFalse exDoc9 exW9a exW9b rfl).1,
    (c9_new_doc_transitions condTrue condFalse exDoc9 exW9a exW9b rfl).2⟩

/-- Claim C10: `bulk_workflow_approval` clears the pending message log
before processing any item, so the batch report is independent of whatever
messages the caller had accumulated — they are discarded and cannot appear
in the report. -/
theorem c10_bulk_clears_message_log (init1 init2 : List LogMessage)
    (runs : String → ItemRun) (docnames : List String) :
    bulk_workflow_approval init1 runs docnames =
      bulk_workflow_approval init2 runs docnames := rfl
